import Mathlib

/-!
# Verification of `restoreMongo.py` (oramatt/extract_schemas)

A shallow embedding of the restoration script `src/restoreMongo.py` and proofs
about its synthetic document generator, index recreator, collection restorer,
metadata loader and restore driver.

Modelling conventions:
* JSON/BSON values are modelled by the inductive type `Value`; Python `None`
  and JSON `null` are both `Value.null`.
* Randomness (the `random` module and the `faker` library) is modelled by an
  oracle `Gen`: each primitive is a function of a call counter (one tick per
  call) returning `Except Unit α`, where `Except.error` models the primitive
  raising an exception.  Theorems quantify over all oracles.
* Machine floats are modelled by `Rat` (the claims under study only concern
  the structure of generated values, not float rounding).
* Python string operations are modelled character-wise on `String.data`
  (`in` as substring, slicing as `List.drop`, `startswith` as `isPrefixOf`).
-/

namespace RestoreMongo

/-- JSON-like values (Python objects manipulated by the script).
`null` models Python `None`; `decimal128` models `bson.Decimal128`. -/
inductive Value where
  | null : Value
  | bool : Bool → Value
  | int : Int → Value
  | float : Rat → Value
  | decimal128 : Rat → Value
  | str : String → Value
  | arr : List Value → Value
  | obj : List (String × Value) → Value

/-- `needle.isInfixOf hay` for character lists (Python `needle in hay`). -/
def infixOf (needle : List Char) : List Char → Bool
  | [] => needle.isEmpty
  | c :: t => needle.isPrefixOf (c :: t) || infixOf needle t

/-- Python `sub in s` on strings (substring containment). -/
def strContains (s sub : String) : Bool := infixOf sub.data s.data

/-- Python `s.lower()` (ASCII is all the script relies on). -/
def lowerStr (s : String) : String := ⟨s.data.map Char.toLower⟩

/-- A schema descriptor section: field name → observed type tags
(`schema_metadata["schema"]` in the script, restricted to its documented
well-formed shape: a mapping from strings to lists of tag strings). -/
abbrev Schema := List (String × List String)

/-- A generated document: insertion-ordered field/value pairs (Python dict). -/
abbrev Doc := List (String × Value)

/-- Python `schema.get(key)` on the (well-formed) schema mapping. -/
def schemaGet (s : Schema) (k : String) : Option (List String) :=
  (s.find? (fun kv => kv.1 = k)).map (fun kv => kv.2)

/-- The dict comprehension
`{k[len(prefix):]: v for k, v in schema.items() if k.startswith(prefix)}`
(line 187 of the script), with the prefix given as a character list. -/
def stripPrefixFields (s : Schema) (pfx : List Char) : Schema :=
  s.filterMap fun kv =>
    if pfx.isPrefixOf kv.1.data then some (String.mk (kv.1.data.drop pfx.length), kv.2)
    else none

/-- Termination measure for the nested-object recursion: total length of all
field names (plus one per field). -/
def schemaMeasure (s : Schema) : Nat :=
  (s.map (fun kv => kv.1.length + 1)).sum

theorem strip_nil (pfx : List Char) : stripPrefixFields [] pfx = [] := rfl

theorem isPrefixOf_length_le :
    ∀ (p l : List Char), p.isPrefixOf l = true → p.length ≤ l.length := by
  intro p
  induction p with
  | nil => intro l _; simp
  | cons a p ih =>
    intro l h
    cases l with
    | nil => simp [List.isPrefixOf] at h
    | cons b l =>
      simp only [List.isPrefixOf, Bool.and_eq_true] at h
      have := ih l h.2
      simp [List.length_cons]
      omega

theorem strip_cons_pos (pfx : List Char) (kv : String × List String) (t : Schema)
    (h : pfx.isPrefixOf kv.1.data = true) :
    stripPrefixFields (kv :: t) pfx =
      (String.mk (kv.1.data.drop pfx.length), kv.2) :: stripPrefixFields t pfx := by
  simp only [stripPrefixFields, List.filterMap_cons, h, eq_self_iff_true, if_true]

theorem strip_cons_neg (pfx : List Char) (kv : String × List String) (t : Schema)
    (h : pfx.isPrefixOf kv.1.data = false) :
    stripPrefixFields (kv :: t) pfx = stripPrefixFields t pfx := by
  simp only [stripPrefixFields, List.filterMap_cons, h, Bool.false_eq_true, if_false]

theorem schemaMeasure_nil : schemaMeasure [] = 0 := rfl

theorem schemaMeasure_cons (kv : String × List String) (t : Schema) :
    schemaMeasure (kv :: t) = kv.1.length + 1 + schemaMeasure t := by
  simp [schemaMeasure]

theorem mk_drop_length (l : List Char) (k : Nat) :
    (String.mk (l.drop k)).length = l.length - k := by
  show (l.drop k).length = l.length - k
  exact List.length_drop _ _

theorem schemaMeasure_strip_le (pfx : List Char) (s : Schema) :
    schemaMeasure (stripPrefixFields s pfx) ≤ schemaMeasure s := by
  induction s with
  | nil => simp [strip_nil]
  | cons kv t ih =>
    rw [schemaMeasure_cons]
    cases h : pfx.isPrefixOf kv.1.data with
    | true =>
      rw [strip_cons_pos pfx kv t h, schemaMeasure_cons, mk_drop_length]
      have hkv : kv.1.length = kv.1.data.length := rfl
      omega
    | false =>
      rw [strip_cons_neg pfx kv t h]
      omega

theorem schemaMeasure_strip_lt (pfx : List Char) (hp : 0 < pfx.length) (s : Schema)
    (hne : stripPrefixFields s pfx ≠ []) :
    schemaMeasure (stripPrefixFields s pfx) < schemaMeasure s := by
  induction s with
  | nil => simp [strip_nil] at hne
  | cons kv t ih =>
    rw [schemaMeasure_cons]
    cases h : pfx.isPrefixOf kv.1.data with
    | true =>
      rw [strip_cons_pos pfx kv t h, schemaMeasure_cons, mk_drop_length]
      have hle : pfx.length ≤ kv.1.data.length := isPrefixOf_length_le _ _ h
      have htail := schemaMeasure_strip_le pfx t
      have hkv : kv.1.length = kv.1.data.length := rfl
      omega
    | false =>
      rw [strip_cons_neg pfx kv t h] at hne
      have := ih hne
      rw [strip_cons_neg pfx kv t h]
      omega

/-- Oracle for the random primitives used by the script.  Each primitive is
indexed by a global call counter (one tick per call); `Except.error` models
the call raising an exception (caught by the script's per-field handler). -/
structure Gen where
  email : Nat → Except Unit String
  name : Nat → Except Unit String
  city : Nat → Except Unit String
  address : Nat → Except Unit String
  phone : Nat → Except Unit String
  url : Nat → Except Unit String
  date : Nat → Except Unit String
  paragraph : Nat → Except Unit String
  word : Nat → Except Unit String
  dateTime : Nat → Except Unit String
  randint : Nat → Int → Int → Except Unit Int
  uniform : Nat → Rat → Rat → Except Unit Rat
  choiceBool : Nat → Except Unit Bool
  objectId : Nat → Except Unit String
  longitude : Nat → Except Unit Rat
  latitude : Nat → Except Unit Rat

/-- Outcome of the per-field generation body (inside the `try` at line 112):
`ok (some v)` — `fake_doc[field] = v`; `ok none` — the body fell through
without assigning (the GeoJSON branch with no recognised geometry);
`err` — an exception was raised (the handler then assigns `None`). -/
inductive FieldOutcome where
  | ok : Option Value → FieldOutcome
  | err : FieldOutcome

/-- One oracle call producing the field value: ticks the counter and converts
an exception into `FieldOutcome.err`. -/
def step1 (n : Nat) (r : Except Unit Value) : FieldOutcome × Nat :=
  match r with
  | .error _ => (.err, n + 1)
  | .ok v => (.ok (some v), n + 1)

/-- Python `round(x, d)` on our rational model of floats. -/
def roundTo (q : Rat) (d : Nat) : Rat := (round (q * (10 : Rat) ^ d) : Int) / (10 : Rat) ^ d

/-- `[float(faker.longitude()), float(faker.latitude())]` (two ticks). -/
def genLonLat (g : Gen) (n : Nat) : Except Unit (Rat × Rat) × Nat :=
  match g.longitude n with
  | .error _ => (.error (), n + 1)
  | .ok lo =>
    match g.latitude (n + 1) with
    | .error _ => (.error (), n + 2)
    | .ok la => (.ok (lo, la), n + 2)

/-- A GeoJSON coordinate pair `[lon, lat]`. -/
def coordPair (lo la : Rat) : Value := .arr [.float lo, .float la]

/-- `{"type": "Point", "coordinates": [lon, lat]}`. -/
def pointValue (lo la : Rat) : Value :=
  .obj [("type", .str "Point"), ("coordinates", .arr [.float lo, .float la])]

/-- The GeoJSON Point generation (lines 174–180 and 200–203). -/
def genPoint (g : Gen) (n : Nat) : FieldOutcome × Nat :=
  match genLonLat g n with
  | (.error _, n1) => (.err, n1)
  | (.ok (lo, la), n1) => (.ok (some (pointValue lo la)), n1)

/-- The GeoJSON LineString generation (lines 204–212): three coordinate pairs. -/
def genLineString (g : Gen) (n : Nat) : FieldOutcome × Nat :=
  match genLonLat g n with
  | (.error _, n1) => (.err, n1)
  | (.ok (a1, b1), n1) =>
    match genLonLat g n1 with
    | (.error _, n2) => (.err, n2)
    | (.ok (a2, b2), n2) =>
      match genLonLat g n2 with
      | (.error _, n3) => (.err, n3)
      | (.ok (a3, b3), n3) =>
        (.ok (some (.obj [("type", .str "LineString"),
          ("coordinates", .arr [coordPair a1 b1, coordPair a2 b2, coordPair a3 b3])])), n3)

/-- The closed polygon ring of lines 218–224: anchor, three corners offset by
the fixed 0.1-degree step, and the anchor repeated to close the loop. -/
def polygonRing (lng lat : Rat) : List Value :=
  [coordPair lng lat,
   coordPair (lng + 1/10) lat,
   coordPair (lng + 1/10) (lat + 1/10),
   coordPair lng (lat + 1/10),
   coordPair lng lat]

/-- The GeoJSON Polygon generation (lines 213–225). -/
def genPolygon (g : Gen) (n : Nat) : FieldOutcome × Nat :=
  match genLonLat g n with
  | (.error _, n1) => (.err, n1)
  | (.ok (lng, lat), n1) =>
    (.ok (some (.obj [("type", .str "Polygon"),
      ("coordinates", .arr [.arr (polygonRing lng lat)])])), n1)

/-- `[faker.word() for _ in range(k)]` — `k` sequential word calls, the first
exception propagating (the remaining calls are not made). -/
def genWordsN (g : Gen) : Nat → Nat → Except Unit (List String) × Nat
  | 0, n => (.ok [], n)
  | k + 1, n =>
    match g.word n with
    | .error _ => (.error (), n + 1)
    | .ok w =>
      match genWordsN g k (n + 1) with
      | (.error e, n2) => (.error e, n2)
      | (.ok ws, n2) => (.ok (w :: ws), n2)

/-- Python `tag in types` (exact membership in the tag list). -/
def hasTag (types : List String) (t : String) : Bool := types.contains t

/-- Python `sub in str(types)`: substring of the printed list.  The needles
the script uses (`"GeoJSON"`, `"Point"`, `"LineString"`, `"Polygon"`)
contain no quote or comma characters, so this is equivalent to a
per-element substring test. -/
def anyContains (types : List String) (sub : String) : Bool :=
  types.any (fun t => strContains t sub)

/-- The `location`/`location.type` check of line 173:
`field == "location" and schema.get("location.type") and
 "Point" in schema.get("location.type", [])`. -/
def locTypeHasPoint (full : Schema) : Bool :=
  match schemaGet full "location.type" with
  | some tl => !tl.isEmpty && tl.contains "Point"
  | none => false

/-- Python `base.update(upd)` on dicts: existing keys are overwritten in
place, new keys appended in order. -/
def updateObj (base : List (String × Value)) (upd : List (String × Value)) :
    List (String × Value) :=
  upd.foldl (fun acc kv =>
    if acc.any (fun p => p.1 == kv.1) then
      acc.map (fun p => if p.1 == kv.1 then kv else p)
    else acc ++ [kv]) base

mutual

/-- The loop `for field, types in schema.items()` of
`generate_synthetic_document` (lines 111–232): `full` is the schema the
current invocation was called with (used for nested lookups), `remaining`
the fields still to process.  Returns the document entries (in insertion
order) and the updated oracle counter. -/
def genFields (g : Gen) (inc : Bool) (full : Schema) (remaining : Schema) (n : Nat) :
    Doc × Nat :=
  match remaining with
  | [] => ([], n)
  | (field, types) :: rest =>
    -- line 114: skip dot-path fields at the top level
    if strContains field "." then genFields g inc full rest n
    -- line 118: skip "_id" unless include_id
    else if field == "_id" && !inc then genFields g inc full rest n
    else
      let b := genBody g full field types n
      let t := genFields g inc full rest b.2
      match b.1 with
      | .ok (some v) => ((field, v) :: t.1, t.2)
      | .ok none => t
      | .err => ((field, Value.null) :: t.1, t.2)
termination_by (schemaMeasure full, remaining.length)
decreasing_by
  · exact Prod.Lex.right _ (Nat.lt_succ_self _)
  · exact Prod.Lex.right _ (Nat.lt_succ_self _)
  · exact Prod.Lex.right _ (Nat.succ_pos _)
  · exact Prod.Lex.right _ (Nat.lt_succ_self _)

/-- The per-field body of `generate_synthetic_document` (the `try` block of
lines 112–227): the type dispatch chain, mirrored branch for branch. -/
def genBody (g : Gen) (full : Schema) (field : String) (types : List String) (n : Nat) :
    FieldOutcome × Nat :=
  let fl := lowerStr field
  if hasTag types "string" then
    if strContains fl "email" then step1 n ((g.email n).map Value.str)
    else if strContains fl "name" then step1 n ((g.name n).map Value.str)
    else if strContains fl "city" then step1 n ((g.city n).map Value.str)
    else if strContains fl "address" then step1 n ((g.address n).map Value.str)
    else if strContains fl "phone" then step1 n ((g.phone n).map Value.str)
    else if strContains fl "url" || strContains fl "website" then
      step1 n ((g.url n).map Value.str)
    else if strContains fl "date" && !(hasTag types "date" || hasTag types "timestamp") then
      step1 n ((g.date n).map Value.str)
    else if strContains fl "description" || strContains fl "notes" || strContains fl "comment" then
      step1 n ((g.paragraph n).map Value.str)
    else step1 n ((g.word n).map Value.str)
  else if hasTag types "int" then
    if strContains fl "age" then step1 n ((g.randint n 18 80).map Value.int)
    else if strContains fl "year" then step1 n ((g.randint n 1950 2025).map Value.int)
    else if strContains fl "count" || strContains fl "quantity" then
      step1 n ((g.randint n 1 1000).map Value.int)
    else step1 n ((g.randint n 1 100).map Value.int)
  else if hasTag types "long" then
    step1 n ((g.randint n 1000000000 9999999999).map Value.int)
  else if hasTag types "double" then
    if strContains fl "price" || strContains fl "cost" || strContains fl "fee" then
      step1 n ((g.uniform n 1 1000).map (fun q => Value.float (roundTo q 2)))
    else if strContains fl "rating" || strContains fl "score" then
      step1 n ((g.uniform n 0 5).map (fun q => Value.float (roundTo q 1)))
    else step1 n ((g.uniform n 1 1000).map (fun q => Value.float (roundTo q 2)))
  else if hasTag types "Decimal128" then
    step1 n ((g.uniform n (-1000) 1000).map (fun q => Value.decimal128 (roundTo q 6)))
  else if hasTag types "boolean" then step1 n ((g.choiceBool n).map Value.bool)
  else if hasTag types "date" then step1 n ((g.dateTime n).map Value.str)
  else if hasTag types "array" then
    if strContains fl "tags" || strContains fl "categories" then
      match g.randint n 1 5 with
      | .error _ => (.err, n + 1)
      | .ok r =>
        match genWordsN g r.toNat (n + 1) with
        | (.error _, n2) => (.err, n2)
        | (.ok ws, n2) => (.ok (some (.arr (ws.map Value.str))), n2)
    else
      match genWordsN g 3 n with
      | (.error _, n2) => (.err, n2)
      | (.ok ws, n2) => (.ok (some (.arr (ws.map Value.str))), n2)
  else if hasTag types "object" then
    if field == "location" && locTypeHasPoint full then genPoint g n
    else
      match g.word n with
      | .error _ => (.err, n + 1)
      | .ok w =>
        let nested := stripPrefixFields full (field.data ++ ['.'])
        if h : nested = [] then (.ok (some (.obj [("nested_key", .str w)])), n + 1)
        else
          let r := genFields g false nested nested (n + 1)
          (.ok (some (.obj (updateObj [("nested_key", .str w)] r.1))), r.2)
  else if hasTag types "ObjectId" then step1 n ((g.objectId n).map Value.str)
  else if hasTag types "null" then (.ok (some Value.null), n)
  -- line 198: any("GeoJSON" in t for t in types); the inner checks are
  -- substring tests on str(types), equivalent to per-element substring tests
  -- since the needles contain no quote or comma characters
  else if anyContains types "GeoJSON" then
    if anyContains types "Point" then genPoint g n
    else if anyContains types "LineString" then genLineString g n
    else if anyContains types "Polygon" then genPolygon g n
    else (.ok none, n)
  else (.ok (some (.str "unknown")), n)
termination_by (schemaMeasure full, 0)
decreasing_by
  · apply Prod.Lex.left
    exact schemaMeasure_strip_lt (field.data ++ ['.']) (by simp) full h

end

/-- `generate_synthetic_document(schema, include_id)` (lines 102–232). -/
def generate_synthetic_document (g : Gen) (schema : Schema) (include_id : Bool) (n : Nat) :
    Doc × Nat :=
  genFields g include_id schema schema n

/-! ## Spec-side dispatch: priority order of type tags -/

/-- The fixed priority order of type tags. -/
inductive Tag where
  | string | int | long | double | decimal128 | boolean | date
  | array | object | objectId | null | geo

/-- Whether a tag list matches a given tag, per the script's membership tests. -/
def tagMatches (types : List String) : Tag → Bool
  | .string => hasTag types "string"
  | .int => hasTag types "int"
  | .long => hasTag types "long"
  | .double => hasTag types "double"
  | .decimal128 => hasTag types "Decimal128"
  | .boolean => hasTag types "boolean"
  | .date => hasTag types "date"
  | .array => hasTag types "array"
  | .object => hasTag types "object"
  | .objectId => hasTag types "ObjectId"
  | .null => hasTag types "null"
  | .geo => anyContains types "GeoJSON"

def priorityOrder : List Tag :=
  [.string, .int, .long, .double, .decimal128, .boolean, .date,
   .array, .object, .objectId, .null, .geo]

def firstTag (types : List String) : Option Tag := priorityOrder.find? (tagMatches types)

/-- The per-tag generation, spec-side restatement of the chain's arms. -/
def genBranch (g : Gen) (full : Schema) (field : String) (types : List String) :
    Tag → Nat → FieldOutcome × Nat
  | .string, n =>
    let fl := lowerStr field
    if strContains fl "email" then step1 n ((g.email n).map Value.str)
    else if strContains fl "name" then step1 n ((g.name n).map Value.str)
    else if strContains fl "city" then step1 n ((g.city n).map Value.str)
    else if strContains fl "address" then step1 n ((g.address n).map Value.str)
    else if strContains fl "phone" then step1 n ((g.phone n).map Value.str)
    else if strContains fl "url" || strContains fl "website" then
      step1 n ((g.url n).map Value.str)
    else if strContains fl "date" && !(hasTag types "date" || hasTag types "timestamp") then
      step1 n ((g.date n).map Value.str)
    else if strContains fl "description" || strContains fl "notes" || strContains fl "comment" then
      step1 n ((g.paragraph n).map Value.str)
    else step1 n ((g.word n).map Value.str)
  | .int, n =>
    let fl := lowerStr field
    if strContains fl "age" then step1 n ((g.randint n 18 80).map Value.int)
    else if strContains fl "year" then step1 n ((g.randint n 1950 2025).map Value.int)
    else if strContains fl "count" || strContains fl "quantity" then
      step1 n ((g.randint n 1 1000).map Value.int)
    else step1 n ((g.randint n 1 100).map Value.int)
  | .long, n => step1 n ((g.randint n 1000000000 9999999999).map Value.int)
  | .double, n =>
    let fl := lowerStr field
    if strContains fl "price" || strContains fl "cost" || strContains fl "fee" then
      step1 n ((g.uniform n 1 1000).map (fun q => Value.float (roundTo q 2)))
    else if strContains fl "rating" || strContains fl "score" then
      step1 n ((g.uniform n 0 5).map (fun q => Value.float (roundTo q 1)))
    else step1 n ((g.uniform n 1 1000).map (fun q => Value.float (roundTo q 2)))
  | .decimal128, n =>
    step1 n ((g.uniform n (-1000) 1000).map (fun q => Value.decimal128 (roundTo q 6)))
  | .boolean, n => step1 n ((g.choiceBool n).map Value.bool)
  | .date, n => step1 n ((g.dateTime n).map Value.str)
  | .array, n =>
    let fl := lowerStr field
    if strContains fl "tags" || strContains fl "categories" then
      match g.randint n 1 5 with
      | .error _ => (.err, n + 1)
      | .ok r =>
        match genWordsN g r.toNat (n + 1) with
        | (.error _, n2) => (.err, n2)
        | (.ok ws, n2) => (.ok (some (.arr (ws.map Value.str))), n2)
    else
      match genWordsN g 3 n with
      | (.error _, n2) => (.err, n2)
      | (.ok ws, n2) => (.ok (some (.arr (ws.map Value.str))), n2)
  | .object, n =>
    if field == "location" && locTypeHasPoint full then genPoint g n
    else
      match g.word n with
      | .error _ => (.err, n + 1)
      | .ok w =>
        let nested := stripPrefixFields full (field.data ++ ['.'])
        if nested = [] then (.ok (some (.obj [("nested_key", .str w)])), n + 1)
        else
          let r := genFields g false nested nested (n + 1)
          (.ok (some (.obj (updateObj [("nested_key", .str w)] r.1))), r.2)
  | .objectId, n => step1 n ((g.objectId n).map Value.str)
  | .null, n => (.ok (some Value.null), n)
  | .geo, n =>
    if anyContains types "Point" then genPoint g n
    else if anyContains types "LineString" then genLineString g n
    else if anyContains types "Polygon" then genPolygon g n
    else (.ok none, n)


/-! ## Python value semantics used by the restore side -/

mutual

/-- Python `==` on the values the script compares (structural; numeric types
compare across `int`/`float`/`bool`; container equality is modelled
structurally, which agrees with Python on the JSON values the script
compares: strings and numbers). -/
def veq : Value → Value → Bool
  | .null, .null => true
  | .bool a, .bool b => a == b
  | .bool a, .int b => (if a then 1 else 0 : Int) == b
  | .bool a, .float b => (if a then 1 else 0 : Rat) == b
  | .int a, .bool b => a == (if b then 1 else 0 : Int)
  | .int a, .int b => a == b
  | .int a, .float b => (a : Rat) == b
  | .float a, .bool b => a == (if b then 1 else 0 : Rat)
  | .float a, .int b => a == (b : Rat)
  | .float a, .float b => a == b
  | .decimal128 a, .decimal128 b => a == b
  | .str a, .str b => a == b
  | .arr a, .arr b => veqList a b
  | .obj a, .obj b => veqObj a b
  | _, _ => false

def veqList : List Value → List Value → Bool
  | [], [] => true
  | x :: xs, y :: ys => veq x y && veqList xs ys
  | _, _ => false

def veqObj : List (String × Value) → List (String × Value) → Bool
  | [], [] => true
  | (k1, v1) :: xs, (k2, v2) :: ys => k1 == k2 && veq v1 v2 && veqObj xs ys
  | _, _ => false

end

/-- Python truthiness (`if value:`). -/
def pyTruthy : Value → Bool
  | .null => false
  | .bool b => b
  | .int i => !(i == 0)
  | .float q => !(q == 0)
  | .decimal128 _ => true
  | .str s => !(s == "")
  | .arr l => !l.isEmpty
  | .obj l => !l.isEmpty

/-- Python `v.get(k, None)`: only dicts have `.get`; anything else raises
`AttributeError` (modelled as `Except.error`). -/
def pyGet (v : Value) (k : String) : Except Unit Value :=
  match v with
  | .obj l => .ok (((l.find? (fun kv => kv.1 == k)).map (fun kv => kv.2)).getD .null)
  | _ => .error ()

/-- Python `v[k]` with a string key: dict lookup (`KeyError` if absent),
`TypeError` on any other value. -/
def pySub (v : Value) (k : String) : Except Unit Value :=
  match v with
  | .obj l =>
    match l.find? (fun kv => kv.1 == k) with
    | some kv => .ok kv.2
    | none => .error ()
  | _ => .error ()

/-- Python `k in v` with a string on the left: key membership for dicts,
element membership for lists, substring for strings, `TypeError` otherwise. -/
def pyIn (k : String) (v : Value) : Except Unit Bool :=
  match v with
  | .obj l => .ok (l.any (fun kv => kv.1 == k))
  | .arr l => .ok (l.any (fun e => veq (.str k) e))
  | .str s => .ok (strContains s k)
  | _ => .error ()

/-- Python `v.items()`: only dicts. -/
def pyItems (v : Value) : Except Unit (List (String × Value)) :=
  match v with
  | .obj l => .ok l
  | _ => .error ()

/-- Python `for x in v`: lists yield elements, dicts their keys, strings
their characters; other values raise `TypeError`. -/
def pyIterate (v : Value) : Except Unit (List Value) :=
  match v with
  | .arr l => .ok l
  | .obj l => .ok (l.map (fun kv => Value.str kv.1))
  | .str s => .ok (s.data.map (fun c => Value.str (String.mk [c])))
  | _ => .error ()

/-- Python `v.copy()`: dicts and lists have `.copy`; other values raise
`AttributeError`. -/
def pyCopy (v : Value) : Except Unit Value :=
  match v with
  | .obj l => .ok (.obj l)
  | .arr l => .ok (.arr l)
  | _ => .error ()

/-- Python `del doc["_id"]` (line 305): removes the key from a dict,
raises `TypeError` on a list (or anything else). -/
def pyDelId (v : Value) : Except Unit Value :=
  match v with
  | .obj l => .ok (.obj (l.filter (fun kv => !(kv.1 == "_id"))))
  | _ => .error ()

/-! ## Metadata Loader (`load_json`, lines 84–99) -/

/-- The state of a metadata file on disk: absent, or present with a byte size
and a parse outcome (`none` models `json.JSONDecodeError`).  A parsed JSON
`null` is `some Value.null`, which Python also surfaces as `None`. -/
inductive FileState where
  | absent : FileState
  | present : Nat → Option Value → FileState

/-- `load_json(file_path)`: `None` when the file is absent, zero-length, or
fails to parse; otherwise the parsed content.  Each failure is logged, not
raised. -/
def load_json : FileState → Value
  | .absent => .null
  | .present 0 _ => .null
  | .present (_ + 1) none => .null
  | .present (_ + 1) (some v) => v

/-! ## Index Recreator (`restore_indexes`, lines 235–270) -/

/-- Database calls issued by the script, in order. -/
inductive DbOp where
  | drop : DbOp
  | insertOne : Value → DbOp
  | insertMany : List Value → DbOp
  | createIndex : List (String × Value) → List (String × Value) → DbOp

/-- The key-direction translation of lines 252–260: pymongo's `GEOSPHERE`,
`ASCENDING` and `DESCENDING` are literally `"2dsphere"`, `1` and `-1`. -/
def translateKey (v : Value) : Value :=
  if veq v (.str "2dsphere") then .str "2dsphere"
  else if veq v (.int 1) then .int 1
  else if veq v (.int (-1)) then .int (-1)
  else v

/-- The per-index `try` body (lines 248–268): translate the key spec, strip
`v`/`key`/`ns` from the descriptor, and issue `create_index`.  `none` means
an exception was raised before the call was issued (caught at line 269, the
loop continues). -/
def indexOp (idx : Value) : Option DbOp :=
  match pySub idx "key" with
  | .error _ => none
  | .ok keyVal =>
    match pyItems keyVal with
    | .error _ => none
    | .ok kvs =>
      match pyItems idx with
      | .error _ => none
      | .ok il =>
        some (.createIndex (kvs.map (fun p => (p.1, translateKey p.2)))
          (il.filter (fun p => !(p.1 == "v" || p.1 == "key" || p.1 == "ns"))))

/-- The loop `for index in schema_metadata["indexes"]` (lines 243–270).
Returns the `create_index` calls issued in order, and a flag marking an
exception that escaped the loop (the `index["name"]` access at line 245
is outside the per-index `try`). -/
def restoreIndexLoop : List Value → List DbOp × Bool
  | [] => ([], false)
  | idx :: rest =>
    match pySub idx "name" with
    | .error _ => ([], true)
    | .ok nm =>
      if veq nm (.str "_id_") then restoreIndexLoop rest
      else
        match indexOp idx with
        | none => restoreIndexLoop rest
        | some op =>
          let r := restoreIndexLoop rest
          (op :: r.1, r.2)

/-- `restore_indexes(db, coll_name, schema_metadata)` (lines 235–270).
Returns the index-creation calls issued and whether an exception escaped
(to be caught by the caller's `try`). -/
def restore_indexes (md : Value) : List DbOp × Bool :=
  if !pyTruthy md then ([], false)
  else
    match pyIn "indexes" md with
    | .error _ => ([], true)
    | .ok false => ([], false)
    | .ok true =>
      match pySub md "indexes" with
      | .error _ => ([], true)
      | .ok iv =>
        match pyIterate iv with
        | .error _ => ([], true)
        | .ok elems => restoreIndexLoop elems

/-! ## Collection Restorer (`recreate_collection`, lines 273–349) -/

/-- Per-collection database environment: whether the collection already
exists (drives the drop at line 278), and whether the insert calls succeed
(a failing call is still issued, then raises into the `try` of line 299). -/
structure DbEnv where
  collExists : Bool
  insertOneOk : Bool
  insertManyOk : Bool

/-- A collection metadata folder: `example_document.json` and
`schema_and_indexes.json`. -/
structure Folder where
  exampleFile : FileState
  schemaFile : FileState

/-- `SYNTHETIC_DOCS_COUNT` (line 48). -/
def SYNTHETIC_DOCS_COUNT : Nat := 10

/-- A tag list from a JSON value: the documented well-formed shape is an
array of tag strings. -/
def toTagList : Value → Option (List String)
  | .arr l => l.mapM (fun v => match v with | .str s => some s | _ => none)
  | _ => none

/-- A schema section from a JSON value.  The script's generator is modelled
over the documented well-formed shape (field name → list of tag strings);
a section of any other shape is modelled as a generation failure (caught by
the `try` of line 299). -/
def toSchema : Value → Option Schema
  | .obj l => l.mapM (fun kv => (toTagList kv.2).map (fun ts => (kv.1, ts)))
  | _ => none

/-- The loop of lines 321–325: generate `count` synthetic documents,
threading the oracle counter. -/
def genDocsLoop (g : Gen) (s : Schema) : Nat → Nat → List Value × Nat
  | 0, n => ([], n)
  | k + 1, n =>
    let d := generate_synthetic_document g s false n
    let r := genDocsLoop g s k d.2
    (Value.obj d.1 :: r.1, r.2)

/-- Lines 334–341: `if schema_metadata: restore_indexes(...)`, then return
`True`; an exception escaping `restore_indexes` is caught by the `try` of
line 299 and turns the result into `False`. -/
def finishRestore (ops : List DbOp) (md : Value) (n : Nat) :
    Except Unit (Bool × List DbOp × Nat) :=
  if pyTruthy md then
    let r := restore_indexes md
    if r.2 then .ok (false, ops ++ r.1, n) else .ok (true, ops ++ r.1, n)
  else .ok (true, ops, n)

/-- `recreate_collection(db_name, coll_name, coll_folder)` (lines 273–349).
Returns `Except.error` when an exception escapes the function (the
`sample_data.get` of line 288 and the `"schema" not in schema_metadata` of
line 294 are outside the `try` of line 299); otherwise the returned flag,
the database calls issued in order, and the oracle counter. -/
def recreate_collection (g : Gen) (env : DbEnv) (folder : Folder) (n : Nat) :
    Except Unit (Bool × List DbOp × Nat) :=
  let ops0 := if env.collExists then [DbOp.drop] else []
  let sampleData := load_json folder.exampleFile
  match (if pyTruthy sampleData then pyGet sampleData "sample_document" else Except.ok Value.null) with
  | .error e => .error e
  | .ok sampleDoc =>
    if pyTruthy sampleDoc then
      -- lines 300–314 (inside the try): strip "_id", insert one document
      match pyCopy sampleDoc with
      | .error _ => .ok (false, ops0, n)
      | .ok d0 =>
        match pyIn "_id" d0 with
        | .error _ => .ok (false, ops0, n)
        | .ok hasId =>
          match (if hasId then pyDelId d0 else .ok d0) with
          | .error _ => .ok (false, ops0, n)
          | .ok d1 =>
            let ops1 := ops0 ++ [DbOp.insertOne d1]
            if !env.insertOneOk then .ok (false, ops1, n)
            else finishRestore ops1 (load_json folder.schemaFile) n
    else
      -- lines 291–296: load and validate the schema descriptor
      let md := load_json folder.schemaFile
      if !pyTruthy md then .ok (false, ops0, n)
      else
        match pyIn "schema" md with
        | .error e => .error e
        | .ok false => .ok (false, ops0, n)
        | .ok true =>
          -- lines 316–329 (inside the try): synthetic generation
          match pySub md "schema" with
          | .error _ => .ok (false, ops0, n)
          | .ok sv =>
            match toSchema sv with
            | none => .ok (false, ops0, n)
            | some s =>
              let r := genDocsLoop g s SYNTHETIC_DOCS_COUNT n
              let ops1 := ops0 ++ [DbOp.insertMany r.1]
              if !env.insertManyOk then .ok (false, ops1, r.2)
              else finishRestore ops1 md r.2

/-! ## Restore Driver (`main`, lines 371–423) -/

/-- Run statistics (the `stats` dict of lines 385–390, restricted to the
per-collection counters). -/
structure Stats where
  processed : Nat
  restored : Nat
  errors : Nat

/-- The collection loop of `main` (lines 401–413): one `recreate_collection`
call per folder, counting successes and failures.  There is no exception
handler around the call, so an exception escaping `recreate_collection`
aborts the whole walk. -/
def driverLoop (g : Gen) : List (DbEnv × Folder) → Nat → Stats → Except Unit (Stats × Nat)
  | [], n, st => .ok (st, n)
  | (env, f) :: rest, n, st =>
    let st1 : Stats := { st with processed := st.processed + 1 }
    match recreate_collection g env f n with
    | .error e => .error e
    | .ok (true, _, n2) => driverLoop g rest n2 { st1 with restored := st1.restored + 1 }
    | .ok (false, _, n2) => driverLoop g rest n2 { st1 with errors := st1.errors + 1 }

/-! ## Witness fixtures and checkers -/

/-- A concrete oracle whose calls all succeed, used to evaluate witnesses. -/
def g0 : Gen where
  email := fun _ => .ok "user@example.com"
  name := fun _ => .ok "Ada"
  city := fun _ => .ok "Rome"
  address := fun _ => .ok "1 Main St"
  phone := fun _ => .ok "555-0100"
  url := fun _ => .ok "http://example.com"
  date := fun _ => .ok "2020-01-01"
  paragraph := fun _ => .ok "some text"
  word := fun _ => .ok "lorem"
  dateTime := fun _ => .ok "2020-01-01T00:00:00"
  randint := fun _ lo _ => .ok lo
  uniform := fun _ lo _ => .ok lo
  choiceBool := fun _ => .ok true
  objectId := fun _ => .ok "65f000000000000000000000"
  longitude := fun _ => .ok 10
  latitude := fun _ => .ok 20

/-- A concrete oracle whose calls all raise, used to exercise error paths. -/
def gFail : Gen where
  email := fun _ => .error ()
  name := fun _ => .error ()
  city := fun _ => .error ()
  address := fun _ => .error ()
  phone := fun _ => .error ()
  url := fun _ => .error ()
  date := fun _ => .error ()
  paragraph := fun _ => .error ()
  word := fun _ => .error ()
  dateTime := fun _ => .error ()
  randint := fun _ _ _ => .error ()
  uniform := fun _ _ _ => .error ()
  choiceBool := fun _ => .error ()
  objectId := fun _ => .error ()
  longitude := fun _ => .error ()
  latitude := fun _ => .error ()

/-- Checks that a value is a GeoJSON object of the given geometry type. -/
def isGeoType (ty : String) : Value → Bool
  | .obj l => l.any (fun kv => kv.1 == "type" && veq kv.2 (.str ty))
  | _ => false

/-- Whether a database call is an insertion. -/
def isInsert : DbOp → Bool
  | .insertOne _ => true
  | .insertMany _ => true
  | _ => false

/-- Whether a document (as a dict value) carries a top-level `_id` key. -/
def docHasId : Value → Bool
  | .obj l => l.any (fun kv => kv.1 == "_id")
  | _ => false

/-- Whether an index descriptor names the default identifier index. -/
def isIdIdx (v : Value) : Bool :=
  match pySub v "name" with
  | .ok nm => veq nm (.str "_id_")
  | .error _ => false

/-- Database environment for the witnesses: collection absent, inserts succeed. -/
def env0 : DbEnv := ⟨false, true, true⟩

/-- A folder with a sample document whose `_id` must be stripped. -/
def sampleFolder : Folder :=
  ⟨FileState.present 40
    (some (Value.obj [("sample_document",
      Value.obj [("_id", Value.str "origid"), ("a", Value.int 1)])])),
   FileState.absent⟩

/-- Schema metadata value used by the C2 witness. -/
def mdW : Value :=
  Value.obj [("schema", Value.obj [("a", Value.arr [Value.str "int"])]),
             ("indexes", Value.arr [])]

/-- A folder with no sample document and a schema descriptor. -/
def schemaFolder : Folder := ⟨FileState.absent, FileState.present 50 (some mdW)⟩

/-- A folder whose example-document file parses to a JSON array: line 288's
`sample_data.get` then raises `AttributeError` outside any handler. -/
def badFolder : Folder :=
  ⟨FileState.present 3 (some (Value.arr [Value.int 1])), FileState.absent⟩

/-- A folder with no usable metadata at all. -/
def noMetaFolder : Folder := ⟨FileState.absent, FileState.absent⟩

/-- A folder that restores successfully from its sample document. -/
def goodFolder : Folder :=
  ⟨FileState.present 30
    (some (Value.obj [("sample_document", Value.obj [("a", Value.int 1)])])),
   FileState.absent⟩

/-! ## Proofs -/

theorem genBody_eq_dispatch (g : Gen) (full : Schema) (field : String)
    (types : List String) (n : Nat) :
    genBody g full field types n =
      match firstTag types with
      | some k => genBranch g full field types k n
      | none => (.ok (some (.str "unknown")), n) := by
  rw [genBody]
  cases h1 : hasTag types "string" with
  | true => simp [firstTag, priorityOrder, List.find?, tagMatches, h1, genBranch]
  | false =>
  cases h2 : hasTag types "int" with
  | true => simp [firstTag, priorityOrder, List.find?, tagMatches, h1, h2, genBranch]
  | false =>
  cases h3 : hasTag types "long" with
  | true => simp [firstTag, priorityOrder, List.find?, tagMatches, h1, h2, h3, genBranch]
  | false =>
  cases h4 : hasTag types "double" with
  | true => simp [firstTag, priorityOrder, List.find?, tagMatches, h1, h2, h3, h4, genBranch]
  | false =>
  cases h5 : hasTag types "Decimal128" with
  | true => simp [firstTag, priorityOrder, List.find?, tagMatches, h1, h2, h3, h4, h5, genBranch]
  | false =>
  cases h6 : hasTag types "boolean" with
  | true =>
    simp [firstTag, priorityOrder, List.find?, tagMatches, h1, h2, h3, h4, h5, h6, genBranch]
  | false =>
  cases h7 : hasTag types "date" with
  | true =>
    simp [firstTag, priorityOrder, List.find?, tagMatches, h1, h2, h3, h4, h5, h6, h7, genBranch]
  | false =>
  cases h8 : hasTag types "array" with
  | true =>
    simp [firstTag, priorityOrder, List.find?, tagMatches, h1, h2, h3, h4, h5, h6, h7, h8,
      genBranch]
  | false =>
  cases h9 : hasTag types "object" with
  | true =>
    simp [firstTag, priorityOrder, List.find?, tagMatches, h1, h2, h3, h4, h5, h6, h7, h8, h9,
      genBranch]
  | false =>
  cases h10 : hasTag types "ObjectId" with
  | true =>
    simp [firstTag, priorityOrder, List.find?, tagMatches, h1, h2, h3, h4, h5, h6, h7, h8, h9,
      h10, genBranch]
  | false =>
  cases h11 : hasTag types "null" with
  | true =>
    simp [firstTag, priorityOrder, List.find?, tagMatches, h1, h2, h3, h4, h5, h6, h7, h8, h9,
      h10, h11, genBranch]
  | false =>
  cases h12 : anyContains types "GeoJSON" with
  | true =>
    simp [firstTag, priorityOrder, List.find?, tagMatches, h1, h2, h3, h4, h5, h6, h7, h8, h9,
      h10, h11, h12, genBranch]
  | false =>
    simp [firstTag, priorityOrder, List.find?, tagMatches, h1, h2, h3, h4, h5, h6, h7, h8, h9,
      h10, h11, h12, genBranch]


theorem genFields_skip_dot (g : Gen) (inc : Bool) (full : Schema) (f : String)
    (t : List String) (rest : Schema) (n : Nat) (h : strContains f "." = true) :
    genFields g inc full ((f, t) :: rest) n = genFields g inc full rest n := by
  rw [genFields]
  simp [h]

theorem genFields_skip_id (g : Gen) (full : Schema) (t : List String) (rest : Schema) (n : Nat) :
    genFields g false full (("_id", t) :: rest) n = genFields g false full rest n := by
  rw [genFields]
  simp [strContains, infixOf]

/-- C1: the synthetic document generator assigns each top-level field's value
according to the first matching tag in the fixed priority order string, int,
long, double, Decimal128, boolean, date, array, object, ObjectId, null,
GeoJSON geometry (the dispatch equals first-match over `priorityOrder`);
fields whose names contain a dot are skipped at the top level; the field
`_id` is skipped when the include-identifier flag is unset; and a field
whose tag list matches none of the listed tags is assigned the literal
string "unknown" (the `none` arm of the dispatch). -/
theorem c1_generator_priority_dispatch :
    (∀ (g : Gen) (inc : Bool) (full : Schema) (f : String) (t : List String)
      (rest : Schema) (n : Nat), strContains f "." = true →
      genFields g inc full ((f, t) :: rest) n = genFields g inc full rest n) ∧
    (∀ (g : Gen) (full : Schema) (t : List String) (rest : Schema) (n : Nat),
      genFields g false full (("_id", t) :: rest) n = genFields g false full rest n) ∧
    (∀ (g : Gen) (full : Schema) (f : String) (t : List String) (n : Nat),
      genBody g full f t n =
        match firstTag t with
        | some k => genBranch g full f t k n
        | none => (.ok (some (.str "unknown")), n)) :=
  ⟨genFields_skip_dot, genFields_skip_id, genBody_eq_dispatch⟩

theorem c1_witness :
    (genFields g0 false [("a.b", ["int"])] [("a.b", ["int"])] 0 =
      genFields g0 false [("a.b", ["int"])] [] 0) ∧
    (genFields g0 false [] [("_id", ["int"])] 0 = genFields g0 false [] [] 0) ∧
    (genBody g0 [] "x" ["long"] 0 =
      match firstTag ["long"] with
      | some k => genBranch g0 [] "x" ["long"] k 0
      | none => (.ok (some (.str "unknown")), 0)) :=
  ⟨c1_generator_priority_dispatch.1 g0 false [("a.b", ["int"])] "a.b" ["int"] [] 0 (by decide),
   c1_generator_priority_dispatch.2.1 g0 [] ["int"] [] 0,
   c1_generator_priority_dispatch.2.2 g0 [] "x" ["long"] 0⟩

/-- C7: if generating the value of one field raises an error, that field is
set to null in the output document and generation continues for all
remaining fields exactly as it would have; the generator itself is total
and never propagates the per-field error. -/
theorem c7_field_error_yields_null (g : Gen) (inc : Bool) (full : Schema) (f : String)
    (t : List String) (rest : Schema) (n : Nat)
    (hdot : strContains f "." = false)
    (hid : (f == "_id" && !inc) = false)
    (herr : (genBody g full f t n).1 = .err) :
    genFields g inc full ((f, t) :: rest) n =
      ((f, Value.null) :: (genFields g inc full rest (genBody g full f t n).2).1,
       (genFields g inc full rest (genBody g full f t n).2).2) := by
  rw [genFields]
  simp [hdot, hid, herr]

theorem c7_witness :
    genFields gFail false [] [("a", ["int"]), ("b", ["null"])] 0 =
      (("a", Value.null) ::
        (genFields gFail false [] [("b", ["null"])] (genBody gFail [] "a" ["int"] 0).2).1,
       (genFields gFail false [] [("b", ["null"])] (genBody gFail [] "a" ["int"] 0).2).2) :=
  c7_field_error_yields_null gFail false [] "a" ["int"] [("b", ["null"])] 0 (by decide) (by decide)
    (by rw [genBody]; simp [hasTag, strContains, infixOf, lowerStr, step1, Except.map, gFail])


/-- C9 (amended): for a field whose tag list reaches the Polygon sub-branch
(no earlier-priority tag present, a tag containing "GeoJSON", no tag
containing "Point" or "LineString", some tag containing "Polygon") and
whose two coordinate calls succeed, the generated value is a Polygon whose
coordinate ring has exactly 5 points, whose first and last points are
identical, and whose corners are offset from one random anchor by the
fixed 0.1-degree step. -/
theorem c9_polygon_ring (g : Gen) (full : Schema) (f : String) (t : List String)
    (n : Nat) (lng lat : Rat)
    (h1 : hasTag t "string" = false) (h2 : hasTag t "int" = false)
    (h3 : hasTag t "long" = false) (h4 : hasTag t "double" = false)
    (h5 : hasTag t "Decimal128" = false) (h6 : hasTag t "boolean" = false)
    (h7 : hasTag t "date" = false) (h8 : hasTag t "array" = false)
    (h9 : hasTag t "object" = false) (h10 : hasTag t "ObjectId" = false)
    (h11 : hasTag t "null" = false)
    (hgeo : anyContains t "GeoJSON" = true)
    (hpt : anyContains t "Point" = false) (hls : anyContains t "LineString" = false)
    (hpg : anyContains t "Polygon" = true)
    (hlo : g.longitude n = .ok lng) (hla : g.latitude (n + 1) = .ok lat) :
    genBody g full f t n =
      (.ok (some (Value.obj [("type", .str "Polygon"),
        ("coordinates", .arr [.arr (polygonRing lng lat)])])), n + 2) ∧
    (polygonRing lng lat).length = 5 ∧
    (polygonRing lng lat).head? = some (coordPair lng lat) ∧
    (polygonRing lng lat).getLast? = some (coordPair lng lat) := by
  refine ⟨?_, rfl, rfl, rfl⟩
  rw [genBody]
  simp [h1, h2, h3, h4, h5, h6, h7, h8, h9, h10, h11, hgeo, hpt, hls, hpg,
    genPolygon, genLonLat, hlo, hla]

theorem c9_witness :
    (genBody g0 [] "area" ["GeoJSON Polygon"] 0 =
      (.ok (some (Value.obj [("type", .str "Polygon"),
        ("coordinates", .arr [.arr (polygonRing 10 20)])])), 2)) ∧
    (polygonRing 10 20).length = 5 ∧
    (polygonRing 10 20).head? = some (coordPair 10 20) ∧
    (polygonRing 10 20).getLast? = some (coordPair 10 20) :=
  c9_polygon_ring g0 [] "area" ["GeoJSON Polygon"] 0 10 20
    (by decide) (by decide) (by decide) (by decide) (by decide) (by decide)
    (by decide) (by decide) (by decide) (by decide) (by decide)
    (by decide) (by decide) (by decide) (by decide) rfl rfl

/-- C9 as frozen is false: a tag set containing "GeoJSON Polygon" together
with the earlier-priority tag "string" generates a word, not a polygon. -/
theorem c9_counterexample :
    (generate_synthetic_document g0 [("shape", ["string", "GeoJSON Polygon"])] false 0).1 =
      [("shape", Value.str "lorem")] ∧
    isGeoType "Polygon" (Value.str "lorem") = false := by
  constructor
  · simp [generate_synthetic_document, genFields, genBody, hasTag, strContains, infixOf,
      lowerStr, step1, Except.map, g0]
  · rfl

/-- C10 (amended): for a field whose tag list contains a GeoJSON tag but no
tag containing "Point", "LineString" or "Polygon" as a substring (e.g.
"GeoJSON GeometryCollection"), the generated document contains no entry for
that field at all.  (A "GeoJSON MultiPolygon" tag does NOT qualify: the
substring check matches its "Polygon" suffix — see the counterexample.) -/
theorem c10_unrecognized_geometry_omitted (g : Gen) (inc : Bool) (full : Schema) (f : String)
    (t : List String) (rest : Schema) (n : Nat)
    (hdot : strContains f "." = false) (hid : (f == "_id" && !inc) = false)
    (h1 : hasTag t "string" = false) (h2 : hasTag t "int" = false)
    (h3 : hasTag t "long" = false) (h4 : hasTag t "double" = false)
    (h5 : hasTag t "Decimal128" = false) (h6 : hasTag t "boolean" = false)
    (h7 : hasTag t "date" = false) (h8 : hasTag t "array" = false)
    (h9 : hasTag t "object" = false) (h10 : hasTag t "ObjectId" = false)
    (h11 : hasTag t "null" = false)
    (hgeo : anyContains t "GeoJSON" = true)
    (hpt : anyContains t "Point" = false) (hls : anyContains t "LineString" = false)
    (hpg : anyContains t "Polygon" = false) :
    genFields g inc full ((f, t) :: rest) n = genFields g inc full rest n := by
  have hb : genBody g full f t n = (.ok none, n) := by
    rw [genBody]
    simp [h1, h2, h3, h4, h5, h6, h7, h8, h9, h10, h11, hgeo, hpt, hls, hpg]
  rw [genFields]
  simp [hdot, hid, hb]

theorem c10_witness :
    genFields g0 false [] [("geo", ["GeoJSON GeometryCollection"])] 0 =
      genFields g0 false [] [] 0 :=
  c10_unrecognized_geometry_omitted g0 false [] "geo" ["GeoJSON GeometryCollection"] [] 0
    (by decide) (by decide) (by decide) (by decide) (by decide) (by decide) (by decide)
    (by decide) (by decide) (by decide) (by decide) (by decide) (by decide) (by decide)
    (by decide) (by decide) (by decide)

/-- C10 as frozen is false: a "GeoJSON MultiPolygon" tag is not omitted —
the substring check on str(types) matches "Polygon" and a Polygon value is
generated for the field. -/
theorem c10_counterexample :
    (generate_synthetic_document g0 [("geo", ["GeoJSON MultiPolygon"])] false 0).1 =
      [("geo", Value.obj [("type", Value.str "Polygon"),
        ("coordinates", Value.arr [Value.arr (polygonRing 10 20)])])] ∧
    isGeoType "Polygon" (Value.obj [("type", Value.str "Polygon"),
      ("coordinates", Value.arr [Value.arr (polygonRing 10 20)])]) = true := by
  constructor
  · simp [generate_synthetic_document, genFields, genBody, hasTag, anyContains, strContains,
      infixOf, lowerStr, genPolygon, genLonLat, g0]
  · rfl


/-- C6: the metadata loader returns the parsed structured content of the
file, and the empty result (`None`) when the file is absent, zero-length,
or fails to parse; it is a total function (no outcome raises), so the
caller can proceed with a no-metadata fallback. -/
theorem c6_load_json_total_contract :
    (load_json .absent = .null) ∧
    (∀ p, load_json (.present 0 p) = .null) ∧
    (∀ k, load_json (.present (k + 1) none) = .null) ∧
    (∀ k v, load_json (.present (k + 1) (some v)) = v) :=
  ⟨rfl, fun _ => rfl, fun _ => rfl, fun _ _ => rfl⟩

/-- C4: for an index descriptor whose name is not "_id_", the recreator
issues an index-creation call whose key specification translates each
stored key value (1 → ascending 1, -1 → descending -1, "2dsphere" →
geospatial "2dsphere", anything else verbatim) preserving the original key
order, and whose options are exactly the descriptor's entries minus the
keys "v", "key" and "ns".  The witness instantiates the spec's example
`{"name":"idx1","key":{"loc":"2dsphere"}}`. -/
theorem c4_index_translation (l kvs : List (String × Value)) (nm : String)
    (rest : List Value)
    (hname : pySub (Value.obj l) "name" = .ok (.str nm))
    (hnm : (nm == "_id_") = false)
    (hkey : pySub (Value.obj l) "key" = .ok (Value.obj kvs)) :
    restoreIndexLoop (Value.obj l :: rest) =
      (DbOp.createIndex (kvs.map (fun p => (p.1, translateKey p.2)))
        (l.filter (fun p => !(p.1 == "v" || p.1 == "key" || p.1 == "ns"))) ::
          (restoreIndexLoop rest).1,
       (restoreIndexLoop rest).2) ∧
    translateKey (.int 1) = .int 1 ∧
    translateKey (.int (-1)) = .int (-1) ∧
    translateKey (.str "2dsphere") = .str "2dsphere" ∧
    (∀ v : Value, veq v (.str "2dsphere") = false → veq v (.int 1) = false →
      veq v (.int (-1)) = false → translateKey v = v) := by
  refine ⟨?_, by simp [translateKey, veq], by simp [translateKey, veq],
    by simp [translateKey, veq], ?_⟩
  · rw [restoreIndexLoop]
    simp [hname, veq, hnm, indexOp, hkey, pyItems]
  · intro v hv1 hv2 hv3
    simp [translateKey, hv1, hv2, hv3]

theorem c4_witness :
    restoreIndexLoop
        [Value.obj [("name", .str "idx1"), ("key", .obj [("loc", .str "2dsphere")])]] =
      (DbOp.createIndex
          ([("loc", Value.str "2dsphere")].map (fun p => (p.1, translateKey p.2)))
          ([("name", Value.str "idx1"), ("key", Value.obj [("loc", Value.str "2dsphere")])].filter
            (fun p => !(p.1 == "v" || p.1 == "key" || p.1 == "ns"))) ::
        (restoreIndexLoop []).1,
       (restoreIndexLoop []).2) ∧
    translateKey (.str "2dsphere") = .str "2dsphere" :=
  ⟨(c4_index_translation
      [("name", .str "idx1"), ("key", .obj [("loc", .str "2dsphere")])]
      [("loc", .str "2dsphere")] "idx1" [] rfl (by decide) rfl).1,
   (c4_index_translation
      [("name", .str "idx1"), ("key", .obj [("loc", .str "2dsphere")])]
      [("loc", .str "2dsphere")] "idx1" [] rfl (by decide) rfl).2.2.2.1⟩

theorem restoreIndexLoop_filter (elems : List Value) :
    restoreIndexLoop elems = restoreIndexLoop (elems.filter (fun v => !isIdIdx v)) := by
  induction elems with
  | nil => rfl
  | cons idx rest ih =>
    rw [List.filter_cons]
    cases hsub : pySub idx "name" with
    | error e =>
      have hkeep : (!isIdIdx idx) = true := by simp [isIdIdx, hsub]
      rw [if_pos hkeep, restoreIndexLoop, restoreIndexLoop]
      simp [hsub]
    | ok nm =>
      cases hveq : veq nm (Value.str "_id_") with
      | true =>
        have hdrop : (!isIdIdx idx) = false := by simp [isIdIdx, hsub, hveq]
        simp only [hdrop, Bool.false_eq_true, if_false]
        rw [restoreIndexLoop]
        simp [hsub, hveq, ih]
      | false =>
        have hkeep : (!isIdIdx idx) = true := by simp [isIdIdx, hsub, hveq]
        rw [if_pos hkeep, restoreIndexLoop, restoreIndexLoop]
        simp [hsub, hveq]
        rw [ih]

/-- C5: no index-creation call is ever issued for a descriptor named
"_id_": the index loop's output is unchanged when all such descriptors are
filtered out, and any descriptor whose name equals "_id_" is skipped. -/
theorem c5_id_index_never_recreated :
    (∀ elems : List Value,
      restoreIndexLoop elems = restoreIndexLoop (elems.filter (fun v => !isIdIdx v))) ∧
    (∀ (idx : Value) (rest : List Value) (nm : Value),
      pySub idx "name" = .ok nm → veq nm (.str "_id_") = true →
      restoreIndexLoop (idx :: rest) = restoreIndexLoop rest) := by
  refine ⟨restoreIndexLoop_filter, ?_⟩
  intro idx rest nm hsub hveq
  rw [restoreIndexLoop]
  simp [hsub, hveq]

theorem c5_witness :
    restoreIndexLoop [Value.obj [("name", .str "_id_"), ("key", .obj [("x", .int 1)])]] =
      restoreIndexLoop [] :=
  c5_id_index_never_recreated.2
    (Value.obj [("name", .str "_id_"), ("key", .obj [("x", .int 1)])]) [] (.str "_id_")
    rfl (by simp [veq])


theorem genFields_keys_ne_id (g : Gen) (full : Schema) (remaining : Schema) :
    ∀ (n : Nat) (kv : String × Value),
      kv ∈ (genFields g false full remaining n).1 → kv.1 ≠ "_id" := by
  induction remaining with
  | nil =>
    intro n kv hmem
    rw [genFields] at hmem
    simp at hmem
  | cons ft rest ih =>
    obtain ⟨f, t⟩ := ft
    intro n kv hmem
    rw [genFields] at hmem
    cases hdot : strContains f "." with
    | true =>
      rw [if_pos hdot] at hmem
      exact ih n kv hmem
    | false =>
      have hdot2 : ¬ (strContains f "." = true) := by simp [hdot]
      rw [if_neg hdot2] at hmem
      cases hf : f == "_id" with
      | true =>
        have hc : (f == "_id" && !false) = true := by simp [hf]
        rw [if_pos hc] at hmem
        exact ih n kv hmem
      | false =>
        have hc : ¬ ((f == "_id" && !false) = true) := by simp [hf]
        rw [if_neg hc] at hmem
        have hfne : f ≠ "_id" := by
          intro he
          rw [he] at hf
          simp at hf
        cases hout : (genBody g full f t n).1 with
        | err =>
          simp only [hout] at hmem
          rcases List.mem_cons.mp hmem with h1 | h1
          · rw [h1]; exact hfne
          · exact ih _ kv h1
        | ok o =>
          cases o with
          | none =>
            simp only [hout] at hmem
            exact ih _ kv hmem
          | some v =>
            simp only [hout] at hmem
            rcases List.mem_cons.mp hmem with h1 | h1
            · rw [h1]; exact hfne
            · exact ih _ kv h1

theorem genDocsLoop_length (g : Gen) (s : Schema) :
    ∀ (k n : Nat), (genDocsLoop g s k n).1.length = k := by
  intro k
  induction k with
  | zero => intro n; rfl
  | succ k ih => intro n; simp [genDocsLoop, ih]

theorem genDocsLoop_no_id (g : Gen) (s : Schema) :
    ∀ (k n : Nat) (d : Value), d ∈ (genDocsLoop g s k n).1 → docHasId d = false := by
  intro k
  induction k with
  | zero => intro n d h; simp [genDocsLoop] at h
  | succ k ih =>
    intro n d h
    simp only [genDocsLoop] at h
    rcases List.mem_cons.mp h with h1 | h1
    · rw [h1]
      simp only [docHasId]
      cases hany : (generate_synthetic_document g s false n).1.any (fun kv => kv.1 == "_id") with
      | false => rfl
      | true =>
        exfalso
        rcases List.any_eq_true.mp hany with ⟨kv, hm, hbeq⟩
        simp only [generate_synthetic_document] at hm
        exact genFields_keys_ne_id g s s n kv hm (by simpa using hbeq)
    · exact ih _ d h1

theorem indexOp_not_insert (idx : Value) (op : DbOp) (h : indexOp idx = some op) :
    isInsert op = false := by
  unfold indexOp at h
  cases h1 : pySub idx "key" with
  | error e => simp only [h1] at h; simp at h
  | ok kv =>
    simp only [h1] at h
    cases h2 : pyItems kv with
    | error e => simp only [h2] at h; simp at h
    | ok kvs =>
      simp only [h2] at h
      cases h3 : pyItems idx with
      | error e => simp only [h3] at h; simp at h
      | ok il =>
        simp only [h3, Option.some.injEq] at h
        rw [← h]
        rfl

theorem restoreIndexLoop_not_insert (elems : List Value) :
    ∀ op ∈ (restoreIndexLoop elems).1, isInsert op = false := by
  induction elems with
  | nil => intro op h; simp [restoreIndexLoop] at h
  | cons idx rest ih =>
    intro op h
    rw [restoreIndexLoop] at h
    cases h1 : pySub idx "name" with
    | error e => simp only [h1] at h; simp at h
    | ok nm =>
      simp only [h1] at h
      cases h2 : veq nm (.str "_id_") with
      | true =>
        simp only [h2, if_true, eq_self_iff_true] at h
        exact ih op h
      | false =>
        simp only [h2, Bool.false_eq_true, if_false] at h
        cases h3 : indexOp idx with
        | none =>
          simp only [h3] at h
          exact ih op h
        | some op2 =>
          simp only [h3] at h
          simp only [List.mem_cons] at h
          rcases h with h | h
          · rw [h]; exact indexOp_not_insert idx op2 h3
          · exact ih op h

theorem restore_indexes_not_insert (md : Value) :
    ∀ op ∈ (restore_indexes md).1, isInsert op = false := by
  intro op h
  unfold restore_indexes at h
  split at h
  · simp at h
  · split at h
    · simp at h
    · simp at h
    · split at h
      · simp at h
      · split at h
        · simp at h
        · exact restoreIndexLoop_not_insert _ op h

theorem filter_insert_ops (b : Bool) (op : DbOp) (ix : List DbOp)
    (hx : ∀ o ∈ ix, isInsert o = false) (hop : isInsert op = true) :
    ((if b then [DbOp.drop] else []) ++ op :: ix).filter isInsert = [op] := by
  have hix : ix.filter isInsert = [] := by
    rw [List.filter_eq_nil_iff]
    intro a ha
    simp [hx a ha]
  have hdrop : isInsert DbOp.drop = false := rfl
  cases b <;> simp [List.filter_append, List.filter_cons, hop, hix, hdrop]

theorem filter_insert_ops0 (b : Bool) (op : DbOp) (hop : isInsert op = true) :
    ((if b then [DbOp.drop] else []) ++ [op]).filter isInsert = [op] := by
  have hdrop : isInsert DbOp.drop = false := rfl
  cases b <;> simp [List.filter_append, List.filter_cons, hop, hdrop]

theorem docHasId_strip (l : List (String × Value)) :
    docHasId (Value.obj (l.filter (fun kv => !(kv.1 == "_id")))) = false := by
  simp only [docHasId]
  cases hany : (l.filter (fun kv => !(kv.1 == "_id"))).any (fun kv => kv.1 == "_id") with
  | false => rfl
  | true =>
    exfalso
    rcases List.any_eq_true.mp hany with ⟨kv, hm, hbeq⟩
    rw [List.mem_filter] at hm
    rw [hbeq] at hm
    simp at hm

/-- C2: for a collection folder with no usable sample document but a schema
descriptor containing a well-formed schema section, the restorer issues
exactly one insert call, a single batch of exactly `SYNTHETIC_DOCS_COUNT`
synthetic documents, none of which contains a pre-set "_id" field. -/
theorem c2_schema_only_synthetic_batch (g : Gen) (env : DbEnv) (folder : Folder)
    (n : Nat) (sd md sv : Value) (s : Schema)
    (hs : (if pyTruthy (load_json folder.exampleFile) then
            pyGet (load_json folder.exampleFile) "sample_document"
          else Except.ok Value.null) = .ok sd)
    (hsd : pyTruthy sd = false)
    (hmd : load_json folder.schemaFile = md)
    (hmdT : pyTruthy md = true)
    (hin : pyIn "schema" md = .ok true)
    (hsub : pySub md "schema" = .ok sv)
    (hsch : toSchema sv = some s)
    (hins : env.insertManyOk = true) :
    ∃ b ops n2, recreate_collection g env folder n = .ok (b, ops, n2) ∧
      ops.filter isInsert = [DbOp.insertMany (genDocsLoop g s SYNTHETIC_DOCS_COUNT n).1] ∧
      (genDocsLoop g s SYNTHETIC_DOCS_COUNT n).1.length = SYNTHETIC_DOCS_COUNT ∧
      ∀ d ∈ (genDocsLoop g s SYNTHETIC_DOCS_COUNT n).1, docHasId d = false := by
  have hix := restore_indexes_not_insert md
  simp only [recreate_collection, hs, hsd, hmd, hmdT, hin, hsub, hsch, hins,
    Bool.not_true, Bool.false_eq_true, Bool.true_eq_false, if_false, if_true,
    eq_self_iff_true, finishRestore]
  cases hr : (restore_indexes md).2 with
  | false =>
    refine ⟨true,
      (if env.collExists then [DbOp.drop] else []) ++
        DbOp.insertMany (genDocsLoop g s SYNTHETIC_DOCS_COUNT n).1 :: (restore_indexes md).1,
      (genDocsLoop g s SYNTHETIC_DOCS_COUNT n).2, ?_, ?_,
      genDocsLoop_length g s _ n, genDocsLoop_no_id g s _ n⟩
    · simp [hr]
    · exact filter_insert_ops env.collExists _ _ hix rfl
  | true =>
    refine ⟨false,
      (if env.collExists then [DbOp.drop] else []) ++
        DbOp.insertMany (genDocsLoop g s SYNTHETIC_DOCS_COUNT n).1 :: (restore_indexes md).1,
      (genDocsLoop g s SYNTHETIC_DOCS_COUNT n).2, ?_, ?_,
      genDocsLoop_length g s _ n, genDocsLoop_no_id g s _ n⟩
    · simp [hr]
    · exact filter_insert_ops env.collExists _ _ hix rfl


theorem finishRestore_insert_filter (op : DbOp) (b : Bool) (md : Value) (n : Nat)
    (hop : isInsert op = true) :
    ∃ bb ops n2,
      finishRestore ((if b then [DbOp.drop] else []) ++ [op]) md n = .ok (bb, ops, n2) ∧
        ops.filter isInsert = [op] ∧ n2 = n := by
  unfold finishRestore
  cases hT : pyTruthy md with
  | false =>
    simp only [hT, Bool.false_eq_true, if_false]
    exact ⟨true, _, _, rfl, filter_insert_ops0 b op hop, rfl⟩
  | true =>
    simp only [hT, if_true, eq_self_iff_true]
    have hix := restore_indexes_not_insert md
    cases hr : (restore_indexes md).2 with
    | false =>
      refine ⟨true, ((if b then [DbOp.drop] else []) ++ [op]) ++ (restore_indexes md).1, n,
        ?_, ?_, rfl⟩
      · simp [hr]
      · rw [List.append_assoc, List.singleton_append]
        exact filter_insert_ops b op _ hix hop
    | true =>
      refine ⟨false, ((if b then [DbOp.drop] else []) ++ [op]) ++ (restore_indexes md).1, n,
        ?_, ?_, rfl⟩
      · simp [hr]
      · rw [List.append_assoc, List.singleton_append]
        exact filter_insert_ops b op _ hix hop

/-- C3: for a collection folder whose example-document file yields a
present, non-empty sample document (a non-empty JSON object), the restorer
issues exactly one insert call whose document is the sample with the "_id"
entry removed, so the inserted document carries no pre-set identifier (the
target database then assigns a fresh one). -/
theorem c3_sample_single_insert_stripped_id (g : Gen) (env : DbEnv) (folder : Folder)
    (n : Nat) (l : List (String × Value))
    (hs : (if pyTruthy (load_json folder.exampleFile) then
            pyGet (load_json folder.exampleFile) "sample_document"
          else Except.ok Value.null) = .ok (Value.obj l))
    (hne : l ≠ [])
    (hins : env.insertOneOk = true) :
    ∃ b ops n2, recreate_collection g env folder n = .ok (b, ops, n2) ∧
      ops.filter isInsert =
        [DbOp.insertOne (Value.obj (l.filter (fun kv => !(kv.1 == "_id"))))] ∧
      docHasId (Value.obj (l.filter (fun kv => !(kv.1 == "_id")))) = false := by
  have hT : pyTruthy (Value.obj l) = true := by simp [pyTruthy, hne]
  simp only [recreate_collection, hs, hT, if_true, eq_self_iff_true, pyCopy, pyIn, hins,
    Bool.not_true, Bool.false_eq_true, if_false]
  cases hid : l.any (fun kv => kv.1 == "_id") with
  | true =>
    simp only [hid, if_true, eq_self_iff_true, pyDelId]
    obtain ⟨bb, ops, n2, heq, hfil, _⟩ := finishRestore_insert_filter
      (DbOp.insertOne (Value.obj (l.filter (fun kv => !(kv.1 == "_id"))))) env.collExists
      (load_json folder.schemaFile) n rfl
    exact ⟨bb, ops, n2, heq, hfil, docHasId_strip l⟩
  | false =>
    have hfl : l.filter (fun kv => !(kv.1 == "_id")) = l := by
      apply List.filter_eq_self.mpr
      intro a ha
      have hfa := List.any_eq_false.mp hid a ha
      simp only [Bool.not_eq_true] at hfa
      simp [hfa]
    simp only [hid, Bool.false_eq_true, if_false]
    obtain ⟨bb, ops, n2, heq, hfil, _⟩ := finishRestore_insert_filter
      (DbOp.insertOne (Value.obj l)) env.collExists (load_json folder.schemaFile) n rfl
    refine ⟨bb, ops, n2, heq, ?_, ?_⟩
    · rw [hfl]
      exact hfil
    · have := docHasId_strip l
      rw [hfl] at this
      rw [hfl]
      exact this

theorem c3_witness :
    ∃ b ops n2, recreate_collection g0 env0 sampleFolder 0 = .ok (b, ops, n2) ∧
      ops.filter isInsert =
        [DbOp.insertOne (Value.obj
          ([("_id", Value.str "origid"), ("a", Value.int 1)].filter
            (fun kv => !(kv.1 == "_id"))))] ∧
      docHasId (Value.obj
        ([("_id", Value.str "origid"), ("a", Value.int 1)].filter
          (fun kv => !(kv.1 == "_id")))) = false :=
  c3_sample_single_insert_stripped_id g0 env0 sampleFolder 0
    [("_id", Value.str "origid"), ("a", Value.int 1)] rfl (by simp) rfl

theorem c2_witness :
    ∃ b ops n2, recreate_collection g0 env0 schemaFolder 0 = .ok (b, ops, n2) ∧
      ops.filter isInsert =
        [DbOp.insertMany (genDocsLoop g0 [("a", ["int"])] SYNTHETIC_DOCS_COUNT 0).1] ∧
      (genDocsLoop g0 [("a", ["int"])] SYNTHETIC_DOCS_COUNT 0).1.length =
        SYNTHETIC_DOCS_COUNT ∧
      ∀ d ∈ (genDocsLoop g0 [("a", ["int"])] SYNTHETIC_DOCS_COUNT 0).1,
        docHasId d = false :=
  c2_schema_only_synthetic_batch g0 env0 schemaFolder 0 Value.null mdW
    (Value.obj [("a", Value.arr [Value.str "int"])]) [("a", ["int"])]
    rfl rfl rfl rfl rfl rfl rfl rfl

/-- C8: a folder with neither a usable sample document nor a usable schema
is reported as a failure (counted in the error statistic) and the walk
continues to the next collection (first two conjuncts); however, a folder
whose example-document file parses to a non-object JSON value makes
`sample_data.get` raise outside the `try`, the error escapes
`recreate_collection`, and the unprotected driver loop aborts the whole
walk (last two conjuncts) — contradicting the claim's universal clause. -/
theorem c8_walk_abort_evidence :
    recreate_collection g0 env0 noMetaFolder 0 = .ok (false, [], 0) ∧
    driverLoop g0 [(env0, noMetaFolder), (env0, goodFolder)] 0 ⟨0, 0, 0⟩ =
      .ok (⟨2, 1, 1⟩, 0) ∧
    recreate_collection g0 env0 badFolder 0 = .error () ∧
    driverLoop g0 [(env0, badFolder), (env0, goodFolder)] 0 ⟨0, 0, 0⟩ = .error () :=
  ⟨rfl, rfl, rfl, rfl⟩


end RestoreMongo
